import Mathlib

/-!
Verification development for the MongoDB change-stream trigger node
(`src/nodes/MongoDbChangeStream/MongoDbChangeStream.node.ts`).

The TypeScript trigger is embedded shallowly:
* JavaScript/JSON values are modelled by `JValue`, with JavaScript
  truthiness (`truthy`) and the `||` operator (`jor`).
* The `resumeTokenChanged` handler's save logic (lines 783-850 of the
  source) becomes the pure step function `handleResumeToken` over an
  explicit `SaveState`; the awaited database write, the only statement in
  the handler's try block that can throw, is passed in as an
  `Except String Unit` result.
* The `change` handler's projection (lines 712-759) becomes
  `formatOutput`; the surrounding try/catch becomes `changeHandler`.
* `closeFunction` (lines 449-469) becomes a pure function on a
  `SessionState` returning the new state and an ordered trace of what it
  attempted.
-/

namespace ChangeStreamNode

/-- JSON-like JavaScript values as they flow through the node: `undefined`
models JavaScript `undefined` (e.g. a missing object property). -/
inductive JValue where
  | null
  | undefined
  | bool (b : Bool)
  | num (n : Int)
  | str (s : String)
  | obj (fields : List (String × JValue))
  | arr (elems : List JValue)

/-- JavaScript truthiness: `null`/`undefined`/`false`/`0`/`""` are falsy,
objects and arrays (even empty ones) are truthy. -/
def truthy : JValue → Bool
  | .null => false
  | .undefined => false
  | .bool b => b
  | .num n => n != 0
  | .str s => s != ""
  | .obj _ => true
  | .arr _ => true

/-- The JavaScript `||` operator: `a || b`. -/
def jor (a b : JValue) : JValue :=
  if truthy a then a else b

/-- Property lookup in an object's field list (first match wins). -/
def lookupField : List (String × JValue) → String → JValue
  | [], _ => .undefined
  | (k', v) :: rest, k => if k' = k then v else lookupField rest k

/-- JavaScript property access `o.k` on object values; `undefined` on a
missing key or a non-object receiver. -/
def getField : JValue → String → JValue
  | .obj fs, k => lookupField fs k
  | _, _ => .undefined

/-- Whether a value is `null` or `undefined`. -/
def isNullish : JValue → Bool
  | .null => true
  | .undefined => true
  | _ => false

mutual

/-- `JSON.stringify` on the JSON-representable fragment of `JValue`
(string escaping is not modelled; resume tokens do not contain
characters that need escaping). -/
def jsonStringify : JValue → String
  | .null => "null"
  | .undefined => "null"
  | .bool b => if b then "true" else "false"
  | .num n => toString n
  | .str s => "\"" ++ s ++ "\""
  | .obj fs => "\x7b" ++ stringifyFields fs ++ "\x7d"
  | .arr es => "[" ++ stringifyElems es ++ "]"

def stringifyFields : List (String × JValue) → String
  | [] => ""
  | [(k, v)] => "\"" ++ k ++ "\":" ++ jsonStringify v
  | (k, v) :: rest => "\"" ++ k ++ "\":" ++ jsonStringify v ++ "," ++ stringifyFields rest

def stringifyElems : List JValue → String
  | [] => ""
  | [v] => jsonStringify v
  | v :: rest => jsonStringify v ++ "," ++ stringifyElems rest

end

/-- Source line 793: `typeof token === 'string' ? token : JSON.stringify(token)` —
the serialized (string) form of a resume token used for comparison. -/
def tokenToString : JValue → String
  | .str s => s
  | t => jsonStringify t

/-- The mutable locals captured by the `resumeTokenChanged` handler:
`lastSavedToken` (source line 706) and `lastSaveTime` (line 707). -/
structure SaveState where
  lastSavedToken : Option String
  lastSaveTime : Nat
deriving DecidableEq

/-- Outcome of one `resumeTokenChanged` handler run: whether a checkpoint
write was persisted. -/
inductive SaveOutcome where
  | saved
  | skipped
deriving DecidableEq

/-- The save logic of the `resumeTokenChanged` handler (source lines
790-842), for a session with checkpointing enabled and a live connection.
`saveFrequency` is `options.resumeTokenSaveFrequency || 'smart'`;
`writeResult` is the outcome of the awaited `replaceOne` upsert — an
`Except.error` models the write throwing, which the handler's catch block
absorbs (it only logs).  The cache update (lines 838-839) runs only after
a successful write. -/
def handleResumeToken (saveFrequency : String) (writeResult : Except String Unit)
    (token : JValue) (now : Nat) (st : SaveState) : SaveOutcome × SaveState :=
  if saveFrequency = "smart" ∧ st.lastSavedToken = some (tokenToString token) then
    (.skipped, st)
  else if saveFrequency = "throttled_5s" ∧ now - st.lastSaveTime < 5000 then
    (.skipped, st)
  else
    match writeResult with
    | .ok _ => (.saved, { lastSavedToken := some (tokenToString token), lastSaveTime := now })
    | .error _ => (.skipped, st)

/-- One `resumeTokenChanged` event: the token it carries, the wall-clock
time `Date.now()` at which the handler runs, and the result of the
checkpoint write were it attempted. -/
structure TokenEvent where
  token : JValue
  time : Nat
  writeResult : Except String Unit

/-- The times of the events of a sequentially processed event sequence at
which a checkpoint write was actually persisted (outcome `saved`),
threading the handler state through the sequence. -/
def savedTimes (saveFrequency : String) : SaveState → List TokenEvent → List Nat
  | _, [] => []
  | st, ev :: rest =>
    match handleResumeToken saveFrequency ev.writeResult ev.token ev.time st with
    | (.saved, st') => ev.time :: savedTimes saveFrequency st' rest
    | (.skipped, st') => savedTimes saveFrequency st' rest

/-- The smart-policy skip branch (source lines 797-803): the token's
serialized form equals the cached last-saved token. -/
lemma handleResumeToken_smart_hit (w : Except String Unit) (t : JValue) (n : Nat)
    (st : SaveState) (h : st.lastSavedToken = some (tokenToString t)) :
    handleResumeToken "smart" w t n st = (.skipped, st) := by
  unfold handleResumeToken
  rw [if_pos ⟨rfl, h⟩]

/-- The smart-policy save branch (source lines 822-839): a fresh token and
a successful write update the cache. -/
lemma handleResumeToken_smart_miss (t : JValue) (n : Nat) (st : SaveState)
    (h : ¬ st.lastSavedToken = some (tokenToString t)) :
    handleResumeToken "smart" (.ok ()) t n st =
      (.saved, { lastSavedToken := some (tokenToString t), lastSaveTime := n }) := by
  unfold handleResumeToken
  rw [if_neg (fun hh => h hh.2), if_neg (fun hh => absurd hh.1 (by decide))]

/-- The throttled-policy skip branch (source lines 805-807): less than the
interval has elapsed since the last successful save. -/
lemma handleResumeToken_throttled_early (w : Except String Unit) (t : JValue) (n : Nat)
    (st : SaveState) (hc : n - st.lastSaveTime < 5000) :
    handleResumeToken "throttled_5s" w t n st = (.skipped, st) := by
  unfold handleResumeToken
  rw [if_neg (fun hh => absurd hh.1 (by decide)), if_pos ⟨rfl, hc⟩]

/-- The throttled-policy save branch: the interval has elapsed and the
write succeeds, so `lastSaveTime` becomes `now`. -/
lemma handleResumeToken_throttled_late (t : JValue) (n : Nat) (st : SaveState)
    (hc : ¬ n - st.lastSaveTime < 5000) :
    handleResumeToken "throttled_5s" (.ok ()) t n st =
      (.saved, { lastSavedToken := some (tokenToString t), lastSaveTime := n }) := by
  unfold handleResumeToken
  rw [if_neg (fun hh => absurd hh.1 (by decide)), if_neg (fun hh => hc hh.2)]

/-- A failed checkpoint write is absorbed: outcome `skipped`, state
unchanged, whatever the policy. -/
lemma handleResumeToken_write_error (freq msg : String) (t : JValue) (n : Nat)
    (st : SaveState) :
    handleResumeToken freq (.error msg) t n st = (.skipped, st) := by
  unfold handleResumeToken
  split
  · rfl
  split
  · rfl
  · rfl

/-- Under the throttled policy every persisted write happens at least the
interval after the state's `lastSaveTime`, and the persisted write times
are pairwise at least the interval apart. -/
lemma savedTimes_throttled_spaced (evs : List TokenEvent) :
    ∀ st : SaveState,
      (∀ x ∈ savedTimes "throttled_5s" st evs, st.lastSaveTime + 5000 ≤ x) ∧
      List.Chain' (fun a b => a + 5000 ≤ b) (savedTimes "throttled_5s" st evs) := by
  induction evs with
  | nil => intro st; simp [savedTimes]
  | cons ev rest ih =>
    intro st
    obtain ⟨t, n, w⟩ := ev
    by_cases hc : n - st.lastSaveTime < 5000
    · have hstep := handleResumeToken_throttled_early w t n st hc
      simp only [savedTimes, hstep]
      exact ih st
    · match w with
      | .error msg =>
        have hstep := handleResumeToken_write_error "throttled_5s" msg t n st
        simp only [savedTimes, hstep]
        exact ih st
      | .ok () =>
        have hstep := handleResumeToken_throttled_late t n st hc
        simp only [savedTimes, hstep]
        obtain ⟨ihb, ihc⟩ :=
          ih { lastSavedToken := some (tokenToString t), lastSaveTime := n }
        constructor
        · intro x hx
          rcases List.mem_cons.mp hx with hx | hx
          · omega
          · have := ihb x hx
            simp only at this
            omega
        · refine List.chain'_cons'.mpr ⟨?_, ihc⟩
          intro y hy
          have := ihb y (List.mem_of_mem_head? hy)
          simp only at this
          omega

/-- C1: under the `smart` save-frequency policy (with the checkpoint write
succeeding), a resume-token save is skipped exactly when the token's
serialized form equals the cached last-saved token string; on a successful
save the cache is updated to the new token's serialization; and two
consecutive `resumeTokenChanged` events whose tokens serialize identically
produce at most one persisted write. -/
theorem C1_smart_skip_duplicates (s : SaveState) (t1 t2 : JValue) (n1 n2 : Nat)
    (h : tokenToString t1 = tokenToString t2) :
    ((handleResumeToken "smart" (.ok ()) t1 n1 s).1 = .skipped ↔
        s.lastSavedToken = some (tokenToString t1)) ∧
    ((handleResumeToken "smart" (.ok ()) t1 n1 s).1 = .saved →
        (handleResumeToken "smart" (.ok ()) t1 n1 s).2.lastSavedToken =
          some (tokenToString t1)) ∧
    (savedTimes "smart" s [⟨t1, n1, .ok ()⟩, ⟨t2, n2, .ok ()⟩]).length ≤ 1 := by
  by_cases hhit : s.lastSavedToken = some (tokenToString t1)
  · refine ⟨⟨fun _ => hhit, fun _ => ?_⟩, fun hsaved => ?_, ?_⟩
    · rw [handleResumeToken_smart_hit _ t1 n1 s hhit]
    · rw [handleResumeToken_smart_hit _ t1 n1 s hhit] at hsaved
      simp at hsaved
    · have h2 : s.lastSavedToken = some (tokenToString t2) := h ▸ hhit
      simp only [savedTimes, handleResumeToken_smart_hit _ t1 n1 s hhit,
        handleResumeToken_smart_hit _ t2 n2 s h2, List.length_nil]
      omega
  · have hs1 := handleResumeToken_smart_miss t1 n1 s hhit
    refine ⟨⟨fun hsk => ?_, fun hh => absurd hh hhit⟩, fun _ => ?_, ?_⟩
    · rw [hs1] at hsk
      simp at hsk
    · rw [hs1]
    · have h2 :
        ({ lastSavedToken := some (tokenToString t1), lastSaveTime := n1 } :
            SaveState).lastSavedToken = some (tokenToString t2) := by
        simpa using h
      simp only [savedTimes, hs1, handleResumeToken_smart_hit _ t2 n2 _ h2,
        List.length_cons, List.length_nil]
      omega

/-- C1 witness at concrete inputs: empty cache, two structurally equal
object tokens; the first event writes, the second is skipped. -/
theorem C1_smart_skip_duplicates_witness :
    (tokenToString (.obj [("_data", .str "82AA")]) =
        tokenToString (.obj [("_data", .str "82AA")])) ∧
    (((handleResumeToken "smart" (.ok ()) (.obj [("_data", .str "82AA")]) 7
          ⟨none, 0⟩).1 = .skipped ↔
        (⟨none, 0⟩ : SaveState).lastSavedToken =
          some (tokenToString (.obj [("_data", .str "82AA")]))) ∧
      ((handleResumeToken "smart" (.ok ()) (.obj [("_data", .str "82AA")]) 7
          ⟨none, 0⟩).1 = .saved →
        (handleResumeToken "smart" (.ok ()) (.obj [("_data", .str "82AA")]) 7
            ⟨none, 0⟩).2.lastSavedToken =
          some (tokenToString (.obj [("_data", .str "82AA")]))) ∧
      (savedTimes "smart" ⟨none, 0⟩
          [⟨.obj [("_data", .str "82AA")], 7, .ok ()⟩,
           ⟨.obj [("_data", .str "82AA")], 9, .ok ()⟩]).length ≤ 1) :=
  ⟨rfl, C1_smart_skip_duplicates ⟨none, 0⟩ _ _ 7 9 rfl⟩

/-- C2: under the `throttled_5s` policy, an event arriving strictly less
than 5000 ms after the last successful save is skipped with the state (in
particular `lastSaveTime`) unchanged; and in any sequentially processed
event sequence the times of persisted writes are pairwise at least
5000 ms apart, regardless of event rate. -/
theorem C2_throttled_min_spacing (s : SaveState) (t : JValue) (n : Nat)
    (w : Except String Unit) (evs : List TokenEvent)
    (h : n - s.lastSaveTime < 5000) :
    (handleResumeToken "throttled_5s" w t n s).1 = .skipped ∧
    (handleResumeToken "throttled_5s" w t n s).2 = s ∧
    List.Chain' (fun a b => a + 5000 ≤ b) (savedTimes "throttled_5s" s evs) := by
  rw [handleResumeToken_throttled_early w t n s h]
  exact ⟨rfl, rfl, (savedTimes_throttled_spaced evs s).2⟩

/-- C2 witness at concrete inputs: an event 3000 ms after a save is
skipped, and a concrete burst of events yields writes 5000 ms apart. -/
theorem C2_throttled_min_spacing_witness :
    (3000 - (⟨some "a", 0⟩ : SaveState).lastSaveTime < 5000) ∧
    ((handleResumeToken "throttled_5s" (.ok ()) (.str "b") 3000
        ⟨some "a", 0⟩).1 = .skipped ∧
      (handleResumeToken "throttled_5s" (.ok ()) (.str "b") 3000
        ⟨some "a", 0⟩).2 = ⟨some "a", 0⟩ ∧
      List.Chain' (fun a b => a + 5000 ≤ b)
        (savedTimes "throttled_5s" ⟨some "a", 0⟩
          [⟨.str "b", 5000, .ok ()⟩, ⟨.str "c", 6000, .ok ()⟩,
           ⟨.str "d", 9999, .ok ()⟩, ⟨.str "e", 10000, .ok ()⟩])) :=
  ⟨by decide,
    C2_throttled_min_spacing ⟨some "a", 0⟩ (.str "b") 3000 (.ok ())
      [⟨.str "b", 5000, .ok ()⟩, ⟨.str "c", 6000, .ok ()⟩,
       ⟨.str "d", 9999, .ok ()⟩, ⟨.str "e", 10000, .ok ()⟩] (by decide)⟩

/-- C6: a failure of the checkpoint write is caught inside the
`resumeTokenChanged` handler: the outcome is a skip, the policy state
(`lastSavedToken` and `lastSaveTime`) is unchanged, no exception
propagates (the handler is a total function into outcomes), and the
remaining event sequence is processed exactly as if the failing event had
been skipped. -/
theorem C6_write_failure_skipped (freq msg : String) (t : JValue) (n : Nat)
    (st : SaveState) (evs : List TokenEvent) :
    handleResumeToken freq (.error msg) t n st = (.skipped, st) ∧
    savedTimes freq st ({ token := t, time := n, writeResult := .error msg } :: evs) =
      savedTimes freq st evs := by
  have herr := handleResumeToken_write_error freq msg t n st
  exact ⟨herr, by simp only [savedTimes, herr]⟩

/-- Source line 378: the default checkpoint-collection name derived from
the watched collection. -/
def defaultResumeTokenCollection (collection : String) : String :=
  collection ++ "_resume_tokens"

/-- Source line 379: `options.resumeTokenCollection || defaultResumeTokenCollection`
(an empty user value is falsy). -/
def resolveResumeTokenCollection (userCollection collection : String) : String :=
  if userCollection = "" then defaultResumeTokenCollection collection else userCollection

/-- Source line 401 condition: the user key is absent, still an
unresolved template (contains `=\x7b\x7b`), or the literal `default`. -/
def isAutoKey (k : String) : Prop :=
  k = "" ∨ (k.splitOn "=\x7b\x7b").length > 1 ∨ k = "default"

instance (k : String) : Decidable (isAutoKey k) :=
  inferInstanceAs (Decidable (k = "" ∨ (k.splitOn "=\x7b\x7b").length > 1 ∨ k = "default"))

/-- Source lines 400-415: the checkpoint key, auto-derived as
`<resolvedDatabase>.<collection>` (with `database || 'default'`) when
checkpointing is enabled and the user key triggers auto-generation,
otherwise the user key unchanged. -/
def deriveResumeTokenKey (resumeFromDB : Bool) (userKey database collection : String) :
    String :=
  if resumeFromDB = true ∧ isAutoKey userKey then
    (if database = "" then "default" else database) ++ "." ++ collection
  else userKey

/-- C9: with checkpointing enabled and an absent/template/`default` user
key, the checkpoint key is `<resolved-database>.<collection>`; it is a
pure function of the resolved database and collection (independent of
which triggering user value was supplied); re-deriving from an
already-derived key changes nothing; and the default checkpoint-collection
name is `<watched-collection>_resume_tokens`. -/
theorem C9_checkpoint_key_derivation (k1 k2 db coll : String)
    (h1 : isAutoKey k1) (h2 : isAutoKey k2) :
    deriveResumeTokenKey true k1 db coll =
      (if db = "" then "default" else db) ++ "." ++ coll ∧
    deriveResumeTokenKey true k1 db coll = deriveResumeTokenKey true k2 db coll ∧
    deriveResumeTokenKey true (deriveResumeTokenKey true k1 db coll) db coll =
      deriveResumeTokenKey true k1 db coll ∧
    resolveResumeTokenCollection "" coll = coll ++ "_resume_tokens" := by
  have hd : ∀ k, isAutoKey k → deriveResumeTokenKey true k db coll =
      (if db = "" then "default" else db) ++ "." ++ coll := by
    intro k hk
    unfold deriveResumeTokenKey
    rw [if_pos ⟨rfl, hk⟩]
  refine ⟨hd k1 h1, (hd k1 h1).trans (hd k2 h2).symm, ?_, rfl⟩
  by_cases hauto : isAutoKey (deriveResumeTokenKey true k1 db coll)
  · exact (hd _ hauto).trans (hd k1 h1).symm
  · unfold deriveResumeTokenKey
    rw [if_neg (fun hh => hauto hh.2)]

/-- C9 witness at concrete inputs: empty and `default` user keys both
derive `shop.orders`; the default checkpoint collection for `orders` is
`orders_resume_tokens`. -/
theorem C9_checkpoint_key_derivation_witness :
    isAutoKey "" ∧ isAutoKey "default" ∧
    (deriveResumeTokenKey true "" "shop" "orders" =
        (if "shop" = "" then "default" else "shop") ++ "." ++ "orders" ∧
      deriveResumeTokenKey true "" "shop" "orders" =
        deriveResumeTokenKey true "default" "shop" "orders" ∧
      deriveResumeTokenKey true (deriveResumeTokenKey true "" "shop" "orders")
          "shop" "orders" =
        deriveResumeTokenKey true "" "shop" "orders" ∧
      resolveResumeTokenCollection "" "orders" = "orders" ++ "_resume_tokens") :=
  ⟨Or.inl rfl, Or.inr (Or.inr rfl),
    C9_checkpoint_key_derivation "" "default" "shop" "orders"
      (Or.inl rfl) (Or.inr (Or.inr rfl))⟩

/-- Source lines 554-558: a checkpoint record found at startup whose
`token` field is truthy overwrites `options.resumeAfter` with the token's
string form (`token` if it is a string, `JSON.stringify(token)` otherwise). -/
def loadedResumeAfter (storedToken : JValue) (prior : String) : String :=
  if truthy storedToken then tokenToString storedToken else prior

/-- Source lines 684-707: `loadedTokenString` is `options.resumeAfter`
when checkpointing is enabled and a (truthy, hence non-empty) token string
was loaded, and the handler cache starts as
`lastSavedToken := loadedTokenString`, `lastSaveTime := 0`. -/
def initialSaveState (resumeFromDB : Bool) (resumeAfter : String) : SaveState :=
  { lastSavedToken :=
      if resumeFromDB = true ∧ resumeAfter ≠ "" then some resumeAfter else none,
    lastSaveTime := 0 }

/-- C10: when checkpointing is enabled and a token was loaded from the
checkpoint store at startup, the smart policy's cache starts as that
token's string form, so the first `resumeTokenChanged` event whose token
serializes identically is skipped with no write and no state change. -/
theorem C10_loaded_token_primes_cache (tok t' : JValue) (n : Nat)
    (w : Except String Unit)
    (htr : truthy tok = true) (hne : tokenToString tok ≠ "")
    (hsame : tokenToString t' = tokenToString tok) :
    (initialSaveState true (loadedResumeAfter tok "")).lastSavedToken =
      some (tokenToString tok) ∧
    handleResumeToken "smart" w t' n (initialSaveState true (loadedResumeAfter tok "")) =
      (.skipped, initialSaveState true (loadedResumeAfter tok "")) := by
  have hload : loadedResumeAfter tok "" = tokenToString tok := by
    unfold loadedResumeAfter
    rw [if_pos htr]
  have hinit : (initialSaveState true (loadedResumeAfter tok "")).lastSavedToken =
      some (tokenToString tok) := by
    unfold initialSaveState
    rw [hload]
    simp [hne]
  refine ⟨hinit, handleResumeToken_smart_hit w t' n _ ?_⟩
  rw [hsame]
  exact hinit

/-- C10 witness at concrete inputs: a stored string token `RT1` primes the
cache, and an identical first token is skipped. -/
theorem C10_loaded_token_primes_cache_witness :
    truthy (.str "RT1") = true ∧ tokenToString (.str "RT1") ≠ "" ∧
    tokenToString (.str "RT1") = tokenToString (.str "RT1") ∧
    ((initialSaveState true (loadedResumeAfter (.str "RT1") "")).lastSavedToken =
        some (tokenToString (.str "RT1")) ∧
      handleResumeToken "smart" (.ok ()) (.str "RT1") 42
          (initialSaveState true (loadedResumeAfter (.str "RT1") "")) =
        (.skipped, initialSaveState true (loadedResumeAfter (.str "RT1") ""))) :=
  ⟨rfl, by decide, rfl,
    C10_loaded_token_primes_cache (.str "RT1") (.str "RT1") 42 (.ok ())
      rfl (by decide) rfl⟩

/-- The `changeStreamOptions` object assembled by the trigger (source
lines 634-661).  `startAtOperationTime` keeps the raw configured string
(the `new Date(...)` conversion is external to the node's logic). -/
structure ChangeStreamOptions where
  fullDocument : Option String
  batchSize : Nat
  maxAwaitTimeMS : Nat
  resumeAfter : Option JValue
  startAtOperationTime : Option String

/-- Source lines 634-661: build the stream options.  `jsonParse` stands
for `JSON.parse` (`none` models a parse exception, caught on line 648).
`options.resumeAfter` and `options.startAtOperationTime` are falsy exactly
when empty; `options.batchSize || 100` and `options.maxAwaitTimeMS || 1000`
treat 0/absent as falsy. -/
def buildChangeStreamOptions (jsonParse : String → Option JValue)
    (fullDocumentMode : String) (batchSize maxAwaitTimeMS : Nat)
    (resumeAfter startAtOperationTime : String) : ChangeStreamOptions :=
  { fullDocument := if fullDocumentMode = "default" then none else some fullDocumentMode,
    batchSize := if batchSize = 0 then 100 else batchSize,
    maxAwaitTimeMS := if maxAwaitTimeMS = 0 then 1000 else maxAwaitTimeMS,
    resumeAfter :=
      if resumeAfter = "" then none
      else some ((jsonParse resumeAfter).getD (JValue.str resumeAfter)),
    startAtOperationTime :=
      if startAtOperationTime = "" then none else some startAtOperationTime }

/-- C5 counterexample: with both a resume token and a start timestamp
configured, the built stream options carry BOTH fields — the start
timestamp is not suppressed, so the resume token is not given precedence
over it in the stream options. -/
theorem C5_both_fields_set_counterexample :
    (buildChangeStreamOptions (fun _ => none) "default" 100 1000 "RT"
        "2024-01-01T00:00:00Z").resumeAfter ≠ none ∧
    (buildChangeStreamOptions (fun _ => none) "default" 100 1000 "RT"
        "2024-01-01T00:00:00Z").startAtOperationTime ≠ none := by
  constructor <;> exact fun h => Option.noConfusion h

/-- C5 amended: when both a resume token and a start timestamp are
present, both are placed in the stream options (no precedence is applied
by the builder); the token is passed in structured form when it parses as
JSON, otherwise as a raw string. -/
theorem C5_resume_options_amended (parse : String → Option JValue)
    (fdMode : String) (bs ma : Nat) (ra sa : String)
    (hra : ra ≠ "") (hsa : sa ≠ "") :
    (buildChangeStreamOptions parse fdMode bs ma ra sa).resumeAfter =
      some ((parse ra).getD (JValue.str ra)) ∧
    (buildChangeStreamOptions parse fdMode bs ma ra sa).startAtOperationTime =
      some sa := by
  constructor <;> simp [buildChangeStreamOptions, hra, hsa]

/-- C5 amended witness at concrete inputs: a token that fails to parse is
passed as a raw string, a parsing token as the parsed value; the start
timestamp is set alongside. -/
theorem C5_resume_options_amended_witness :
    ("RT" ≠ "" ∧ "TS" ≠ "") ∧
    ((buildChangeStreamOptions (fun _ => none) "default" 100 1000 "RT"
          "TS").resumeAfter =
        some (((fun _ => (none : Option JValue)) "RT").getD (JValue.str "RT")) ∧
      (buildChangeStreamOptions (fun _ => none) "default" 100 1000 "RT"
          "TS").startAtOperationTime = some "TS") :=
  ⟨⟨by decide, by decide⟩,
    C5_resume_options_amended (fun _ => none) "default" 100 1000 "RT" "TS"
      (by decide) (by decide)⟩

/-- The locals of the trigger's shutdown path: the `isClosing` flag and
whether `changeStream` / `nodeConnection` are non-null (lines 445-447). -/
structure SessionState where
  isClosing : Bool
  changeStream : Bool
  nodeConnection : Bool
deriving DecidableEq

/-- Things `closeFunction` does, in order. -/
inductive CloseEvent where
  | streamCloseTried
  | connCloseTried
  | errorLogged
deriving DecidableEq

/-- Source lines 449-469: `closeFunction`.  Returns immediately if already
closing; otherwise sets the flag, then inside a single try block awaits
`changeStream.close()` (nulled on success) and then
`nodeConnection.close()` (nulled on success); one catch block logs any
error and re-raises nothing.  `streamCloseOk`/`connCloseOk` say whether
the respective `close()` call would throw; the returned trace lists the
close calls made and whether the catch block ran, in order. -/
def closeFunction (streamCloseOk connCloseOk : Bool) (st : SessionState) :
    SessionState × List CloseEvent :=
  if st.isClosing then (st, [])
  else
    let st1 : SessionState := { st with isClosing := true }
    if st1.changeStream then
      if streamCloseOk then
        let st2 : SessionState := { st1 with changeStream := false }
        if st2.nodeConnection then
          if connCloseOk then
            ({ st2 with nodeConnection := false }, [.streamCloseTried, .connCloseTried])
          else (st2, [.streamCloseTried, .connCloseTried, .errorLogged])
        else (st2, [.streamCloseTried])
      else (st1, [.streamCloseTried, .errorLogged])
    else
      if st1.nodeConnection then
        if connCloseOk then
          ({ st1 with nodeConnection := false }, [.connCloseTried])
        else (st1, [.connCloseTried, .errorLogged])
      else (st1, [])

/-- Source lines 762-764: the change stream's `error` handler reports the
error only while the session is not closing. -/
def streamErrorReported (st : SessionState) : Bool :=
  !st.isClosing

/-- C7 counterexample: with both a live stream and a live connection, if
stopping the stream fails, the connection close is NOT attempted (the
single try/catch skips it), refuting "both steps are attempted even if
one of them fails". -/
theorem C7_conn_close_skipped_counterexample :
    (⟨false, true, true⟩ : SessionState).nodeConnection = true ∧
    (closeFunction false true ⟨false, true, true⟩).1.nodeConnection = true ∧
    CloseEvent.connCloseTried ∉ (closeFunction false true ⟨false, true, true⟩).2 := by
  decide

/-- C7 amended: shutdown is idempotent and never raises — the closing
flag is set first (suppressing the stream error handler's reporting), the
subscription stop is attempted before the connection close, a failure is
caught and logged, never re-raised, and a second call is a no-op; however
if stopping the subscription fails, the connection close is skipped for
that call (both closes happen only when the stream close succeeds). -/
theorem C7_shutdown_amended (okC : Bool) (st : SessionState)
    (h1 : st.isClosing = false) (h2 : st.changeStream = true)
    (h3 : st.nodeConnection = true) :
    closeFunction false okC st =
      ({ st with isClosing := true }, [.streamCloseTried, .errorLogged]) ∧
    (closeFunction true okC st).2 =
      [.streamCloseTried, .connCloseTried] ++ (if okC then [] else [.errorLogged]) ∧
    (closeFunction false okC st).1.isClosing = true ∧
    streamErrorReported (closeFunction false okC st).1 = false ∧
    closeFunction false okC (closeFunction false okC st).1 =
      ((closeFunction false okC st).1, []) := by
  rcases st with ⟨ic, cs, nc⟩
  simp only at h1 h2 h3
  subst h1; subst h2; subst h3
  cases okC <;> decide

/-- C7 amended witness at concrete inputs. -/
theorem C7_shutdown_amended_witness :
    ((⟨false, true, true⟩ : SessionState).isClosing = false ∧
      (⟨false, true, true⟩ : SessionState).changeStream = true ∧
      (⟨false, true, true⟩ : SessionState).nodeConnection = true) ∧
    (closeFunction false true ⟨false, true, true⟩ =
        ({ isClosing := true, changeStream := true, nodeConnection := true },
          [.streamCloseTried, .errorLogged]) ∧
      (closeFunction true true ⟨false, true, true⟩).2 =
        [.streamCloseTried, .connCloseTried] ++ (if true then [] else [.errorLogged]) ∧
      (closeFunction false true ⟨false, true, true⟩).1.isClosing = true ∧
      streamErrorReported (closeFunction false true ⟨false, true, true⟩).1 = false ∧
      closeFunction false true (closeFunction false true ⟨false, true, true⟩).1 =
        ((closeFunction false true ⟨false, true, true⟩).1, [])) :=
  ⟨⟨rfl, rfl, rfl⟩, C7_shutdown_amended true ⟨false, true, true⟩ rfl rfl rfl⟩

/-- Source lines 612-618: the operation-type membership match stage. -/
def opTypeStage (operationTypes : List String) : JValue :=
  .obj [("$match",
    .obj [("operationType", .obj [("$in", .arr (operationTypes.map JValue.str))])])]

/-- Source lines 621-625: the user-supplied match-filter stage. -/
def userMatchStage (matchFilter : List (String × JValue)) : JValue :=
  .obj [("$match", .obj matchFilter)]

/-- Source lines 628-632: the projection stage. -/
def projectStage (projection : List (String × JValue)) : JValue :=
  .obj [("$project", .obj projection)]

/-- Source lines 608-632: the change-stream aggregation pipeline, built by
three conditional pushes (`operationTypes.length > 0`,
`Object.keys(matchFilter).length > 0`, `Object.keys(projection).length > 0`). -/
def buildPipeline (operationTypes : List String)
    (matchFilter projection : List (String × JValue)) : List JValue :=
  (if operationTypes.length > 0 then [opTypeStage operationTypes] else []) ++
  (if matchFilter.length > 0 then [userMatchStage matchFilter] else []) ++
  (if projection.length > 0 then [projectStage projection] else [])

/-- C8: the pipeline is exactly the fixed-order concatenation of the
operation-type match stage (iff the configured set is non-empty), the
user-filter match stage (iff non-empty) and the projection stage (iff
non-empty); in particular, whenever the user filter and the projection are
both present, the user filter stage occurs at a strictly smaller index
than the projection stage. -/
theorem C8_pipeline_fixed_order (ops : List String)
    (mf pj : List (String × JValue)) (hmf : mf ≠ []) (hpj : pj ≠ []) :
    buildPipeline ops mf pj =
      (if ops.length = 0 then [] else [opTypeStage ops]) ++
      (if mf.length = 0 then [] else [userMatchStage mf]) ++
      (if pj.length = 0 then [] else [projectStage pj]) ∧
    (∃ i j : Nat, i < j ∧
      (buildPipeline ops mf pj)[i]? = some (userMatchStage mf) ∧
      (buildPipeline ops mf pj)[j]? = some (projectStage pj)) := by
  have hmf' : ¬ mf.length = 0 := by simpa using hmf
  have hpj' : ¬ pj.length = 0 := by simpa using hpj
  constructor
  · by_cases ho : ops.length = 0 <;>
      simp [buildPipeline, ho, hmf', hpj', Nat.pos_iff_ne_zero]
  · by_cases ho : ops.length = 0
    · refine ⟨0, 1, by omega, ?_, ?_⟩ <;>
        simp [buildPipeline, ho, hmf', hpj', Nat.pos_iff_ne_zero]
    · refine ⟨1, 2, by omega, ?_, ?_⟩ <;>
        simp [buildPipeline, ho, hmf', hpj', Nat.pos_iff_ne_zero]

/-- C8 witness at concrete inputs: all three stages present, user filter
before projection. -/
theorem C8_pipeline_fixed_order_witness :
    ([("operationType", JValue.str "insert")] ≠ ([] : List (String × JValue)) ∧
      [("fullDocument.name", JValue.num 1)] ≠ ([] : List (String × JValue))) ∧
    (buildPipeline ["insert"] [("operationType", JValue.str "insert")]
        [("fullDocument.name", JValue.num 1)] =
      (if (["insert"] : List String).length = 0 then []
        else [opTypeStage ["insert"]]) ++
      (if [("operationType", JValue.str "insert")].length = 0
        then [] else [userMatchStage [("operationType", JValue.str "insert")]]) ++
      (if [("fullDocument.name", JValue.num 1)].length = 0
        then [] else [projectStage [("fullDocument.name", JValue.num 1)]]) ∧
    (∃ i j : Nat, i < j ∧
      (buildPipeline ["insert"] [("operationType", JValue.str "insert")]
          [("fullDocument.name", JValue.num 1)])[i]? =
        some (userMatchStage [("operationType", JValue.str "insert")]) ∧
      (buildPipeline ["insert"] [("operationType", JValue.str "insert")]
          [("fullDocument.name", JValue.num 1)])[j]? =
        some (projectStage [("fullDocument.name", JValue.num 1)]))) :=
  ⟨⟨List.cons_ne_nil _ _, List.cons_ne_nil _ _⟩,
    C8_pipeline_fixed_order ["insert"] [("operationType", JValue.str "insert")]
      [("fullDocument.name", JValue.num 1)]
      (List.cons_ne_nil _ _) (List.cons_ne_nil _ _)⟩

/-- A change event as delivered by the driver (spec §3 data model): field
presence is explicit; `documentKey`, `fullDocument` and
`updateDescription` are documents when present. -/
structure ChangeEvent where
  operationType : Option String
  documentKey : Option (List (String × JValue))
  fullDocument : Option (List (String × JValue))
  updateDescription : Option (List (String × JValue))
  clusterTime : Option JValue

/-- An optional field of a JavaScript object literal. -/
def optField (k : String) : Option JValue → List (String × JValue)
  | some v => [(k, v)]
  | none => []

/-- The event as the JavaScript object the `change` handler receives. -/
def eventToJValue (e : ChangeEvent) : JValue :=
  .obj (optField "operationType" (e.operationType.map JValue.str) ++
    optField "documentKey" (e.documentKey.map JValue.obj) ++
    optField "fullDocument" (e.fullDocument.map JValue.obj) ++
    optField "updateDescription" (e.updateDescription.map JValue.obj) ++
    optField "clusterTime" e.clusterTime)

/-- Source lines 714-741: the output projection of the `change` handler —
the `switch (outputFormat)` (lines 716-732) followed by the
null/undefined replacement guard (lines 735-741); `now` stands for
`new Date()`. -/
def formatOutput (outputFormat : String) (change : JValue) (now : JValue) : JValue :=
  let outputData :=
    if outputFormat = "document" then
      jor (getField change "fullDocument") (jor (getField change "documentKey") (.obj []))
    else if outputFormat = "simplified" then
      .obj [("operationType", jor (getField change "operationType") (.str "unknown")),
            ("documentKey", jor (getField change "documentKey") (.obj [])),
            ("document", jor (getField change "fullDocument") .null),
            ("updateDescription", jor (getField change "updateDescription") .null),
            ("timestamp", jor (getField change "clusterTime") now)]
    else
      jor change (.obj [])
  if isNullish outputData then
    .obj [("operationType", jor (getField change "operationType") (.str "unknown")),
          ("timestamp", now),
          ("error", .str "No data available")]
  else outputData

/-- Modelled from the claim's words for the `document` format: the event's
`fullDocument` if present, else its `documentKey`, else an empty mapping. -/
def specDocumentOutput (e : ChangeEvent) : JValue :=
  match e.fullDocument with
  | some d => .obj d
  | none =>
    match e.documentKey with
    | some k => .obj k
    | none => .obj []

/-- Modelled from the claim's words for the `simplified` format:
`operationType` (or `unknown`), `documentKey` (or empty), `document`
(`fullDocument` or null), `updateDescription` (or null), `timestamp`
(`clusterTime` or the current time). -/
def specSimplifiedOutput (e : ChangeEvent) (now : JValue) : JValue :=
  .obj [("operationType",
          .str (match e.operationType with | some s => s | none => "unknown")),
        ("documentKey", .obj (match e.documentKey with | some k => k | none => [])),
        ("document", match e.fullDocument with | some d => .obj d | none => .null),
        ("updateDescription",
          match e.updateDescription with | some u => .obj u | none => .null),
        ("timestamp", match e.clusterTime with | some v => v | none => now)]

/-- C3: for every change event (whose operation type, when present, is a
non-empty string, and whose cluster time, when present, is truthy), the
`document` format emits `fullDocument`, else `documentKey`, else an empty
mapping; the `simplified` format emits the five-field simplified record;
the `full` format emits the raw event unmodified; and in each case the
emitted value is neither null nor undefined. -/
theorem C3_output_projection (e : ChangeEvent) (now : JValue)
    (hop : ∀ s, e.operationType = some s → s ≠ "")
    (hct : ∀ v, e.clusterTime = some v → truthy v = true) :
    formatOutput "document" (eventToJValue e) now = specDocumentOutput e ∧
    formatOutput "simplified" (eventToJValue e) now = specSimplifiedOutput e now ∧
    formatOutput "full" (eventToJValue e) now = eventToJValue e ∧
    isNullish (formatOutput "document" (eventToJValue e) now) = false ∧
    isNullish (formatOutput "simplified" (eventToJValue e) now) = false ∧
    isNullish (formatOutput "full" (eventToJValue e) now) = false := by
  obtain ⟨op, dk, fd, ud, ct⟩ := e
  refine ⟨?_, ?_, rfl, ?_, rfl, rfl⟩
  · cases op <;> cases dk <;> cases fd <;> cases ud <;> cases ct <;> rfl
  · cases op <;> cases dk <;> cases fd <;> cases ud <;> cases ct <;>
      simp [formatOutput, eventToJValue, optField, getField, lookupField, jor,
        truthy, isNullish, specSimplifiedOutput, hop, hct] <;>
      (intro hfalse; rename_i v; have h1 : truthy v = false := hfalse;
        rw [hct v rfl] at h1; exact Bool.noConfusion h1)
  · cases op <;> cases dk <;> cases fd <;> cases ud <;> cases ct <;> rfl

/-- C3 witness at a concrete insert event. -/
theorem C3_output_projection_witness :
    (∀ s, (ChangeEvent.mk (some "insert") (some [("_id", .num 1)])
        (some [("status", .str "new")]) none (some (.num 99))).operationType =
          some s → s ≠ "") ∧
    (∀ v, (ChangeEvent.mk (some "insert") (some [("_id", .num 1)])
        (some [("status", .str "new")]) none (some (.num 99))).clusterTime =
          some v → truthy v = true) ∧
    (formatOutput "document"
        (eventToJValue (ChangeEvent.mk (some "insert") (some [("_id", .num 1)])
          (some [("status", .str "new")]) none (some (.num 99)))) (.str "NOW") =
      specDocumentOutput (ChangeEvent.mk (some "insert") (some [("_id", .num 1)])
        (some [("status", .str "new")]) none (some (.num 99))) ∧
    formatOutput "simplified"
        (eventToJValue (ChangeEvent.mk (some "insert") (some [("_id", .num 1)])
          (some [("status", .str "new")]) none (some (.num 99)))) (.str "NOW") =
      specSimplifiedOutput (ChangeEvent.mk (some "insert") (some [("_id", .num 1)])
        (some [("status", .str "new")]) none (some (.num 99))) (.str "NOW") ∧
    formatOutput "full"
        (eventToJValue (ChangeEvent.mk (some "insert") (some [("_id", .num 1)])
          (some [("status", .str "new")]) none (some (.num 99)))) (.str "NOW") =
      eventToJValue (ChangeEvent.mk (some "insert") (some [("_id", .num 1)])
        (some [("status", .str "new")]) none (some (.num 99))) ∧
    isNullish (formatOutput "document"
        (eventToJValue (ChangeEvent.mk (some "insert") (some [("_id", .num 1)])
          (some [("status", .str "new")]) none (some (.num 99)))) (.str "NOW")) =
      false ∧
    isNullish (formatOutput "simplified"
        (eventToJValue (ChangeEvent.mk (some "insert") (some [("_id", .num 1)])
          (some [("status", .str "new")]) none (some (.num 99)))) (.str "NOW")) =
      false ∧
    isNullish (formatOutput "full"
        (eventToJValue (ChangeEvent.mk (some "insert") (some [("_id", .num 1)])
          (some [("status", .str "new")]) none (some (.num 99)))) (.str "NOW")) =
      false) :=
  ⟨fun s hs => by cases hs; decide,
   fun v hv => by cases hv; rfl,
   C3_output_projection
     (ChangeEvent.mk (some "insert") (some [("_id", .num 1)])
       (some [("status", .str "new")]) none (some (.num 99))) (.str "NOW")
     (fun s hs => by cases hs; decide)
     (fun v hv => by cases hv; rfl)⟩

/-- Source lines 753-758: the structured error record emitted when
processing a change event throws. -/
def errorRecord (msg : String) (now : JValue) : JValue :=
  .obj [("operationType", .str "error"), ("error", .str msg),
        ("timestamp", now), ("type", .str "processing_error")]

/-- Source lines 712-760: the `change` handler.  `proc` is the body of the
try block (projection and emission of one event), which may throw; the
catch block (lines 749-759) converts the exception's message into the
structured error record emitted in place of the normal record. -/
def changeHandler (proc : JValue → Except String JValue) (now change : JValue) :
    JValue :=
  match proc change with
  | .ok out => out
  | .error msg => errorRecord msg now

/-- The records emitted for a sequence of change events: the handler runs
once per event, in delivery order. -/
def processEvents (proc : JValue → Except String JValue) (now : JValue)
    (events : List JValue) : List JValue :=
  events.map (changeHandler proc now)

/-- C4: if processing one event throws, exactly one structured error
record (`operationType: error, error: message, timestamp: now,
type: processing_error`) is emitted in place of the normal record, and the
remaining events are processed exactly as they would otherwise have been —
a per-event failure never terminates the session, and one record is
emitted per event. -/
theorem C4_processing_error_isolated (proc : JValue → Except String JValue)
    (now c : JValue) (cs : List JValue) (msg : String)
    (h : proc c = .error msg) :
    processEvents proc now (c :: cs) =
      errorRecord msg now :: processEvents proc now cs ∧
    errorRecord msg now =
      .obj [("operationType", .str "error"), ("error", .str msg),
            ("timestamp", now), ("type", .str "processing_error")] ∧
    (processEvents proc now (c :: cs)).length = (c :: cs).length := by
  refine ⟨?_, rfl, by simp [processEvents]⟩
  simp [processEvents, changeHandler, h]

/-- C4 witness at concrete inputs: a processor that throws on every event. -/
theorem C4_processing_error_isolated_witness :
    ((fun _ => (.error "boom" : Except String JValue)) JValue.null = .error "boom") ∧
    (processEvents (fun _ => .error "boom") (.str "NOW") [JValue.null, .obj []] =
        errorRecord "boom" (.str "NOW") ::
          processEvents (fun _ => .error "boom") (.str "NOW") [.obj []] ∧
      errorRecord "boom" (.str "NOW") =
        .obj [("operationType", .str "error"), ("error", .str "boom"),
              ("timestamp", .str "NOW"), ("type", .str "processing_error")] ∧
      (processEvents (fun _ => .error "boom") (.str "NOW")
          [JValue.null, .obj []]).length = [JValue.null, .obj []].length) :=
  ⟨rfl,
    C4_processing_error_isolated (fun _ => .error "boom") (.str "NOW")
      JValue.null [.obj []] "boom" rfl⟩

end ChangeStreamNode
